import Mathlib

/-!
Shallow embedding of `test-server.js` (E2Open TMS automation server):
the browser-session lifecycle (`checkBrowserSession`, `verifyLogin`,
`initializeBrowserSession`, `performLogin`, `closeBrowserSession`, the
`/api/session/reset` handler) and the load-confirmation workflow
(`executeLoadConfirmation`).

Modelling conventions:
- The mutable global `browserSession` object is the `BrowserSession` record,
  threaded explicitly through every function.
- The outside world (process environment, `Date.now()`, and the outcome of
  every Playwright page/locator operation) is an `Env` record.  `Env` is
  read-only: within one top-level call the clock and the page oracles are
  fixed; between calls the caller may supply a different `Env`.
- Observable resource effects (browser launches, browser-close attempts,
  selected console output) accumulate in an `Effects` record.
- Operations that can reject are embedded with `Except String`; a JS
  `try/catch` that swallows the rejection is embedded by not propagating
  the error branch.  Playwright operations whose failure the claims do not
  depend on (navigation, typing into the search field, the best-effort
  cookie-consent click and the attempt-2 result-link click) are assumed to
  succeed; their real-world effect on the page is absorbed into the `Env`
  oracles.
- Timestamps are `Nat` milliseconds.  `Date.now() - lastActivity` uses `Nat`
  truncated subtraction, which agrees with the JS comparison
  `now - lastActivity > SESSION_TIMEOUT` whenever the threshold is positive.
-/

/-- Whether `pat` starts the character list. -/
def charsHasPre : List Char → List Char → Bool
  | _, [] => true
  | [], _ :: _ => false
  | c :: cs, d :: ds => c == d && charsHasPre cs ds

/-- Whether `pat` occurs somewhere in the character list. -/
def charsIncl : List Char → List Char → Bool
  | [], pat => charsHasPre [] pat
  | s@(_ :: cs), pat => charsHasPre s pat || charsIncl cs pat

/-- JS `String.prototype.includes`: `pat` occurs as a substring of `s`. -/
def jsIncludes (s pat : String) : Bool :=
  charsIncl s.toList pat.toList

/-- JS falsiness test used by `if (!username || !password)` and by
`process.env.X || 'default'`: an absent variable or the empty string. -/
def credMissing : Option String → Bool
  | none => true
  | some s => s.isEmpty

/-- JS `process.env.X || dflt`. -/
def jsEnvOr (v : Option String) (dflt : String) : String :=
  match v with
  | none => dflt
  | some s => if s.isEmpty then dflt else s

/-- Source: `const SESSION_TIMEOUT = 30 * 60 * 1000;` (milliseconds). -/
def SESSION_TIMEOUT : Nat := 30 * 60 * 1000

/-- The global `browserSession` object (`test-server.js` lines 45-52).
Playwright handles are modelled as numeric identifiers. -/
structure BrowserSession where
  browser : Option Nat
  context : Option Nat
  page : Option Nat
  isLoggedIn : Bool
  lastActivity : Option Nat
  sessionId : Option String
deriving DecidableEq

/-- The initial / cleared value of `browserSession`. -/
def emptySession : BrowserSession :=
  { browser := none, context := none, page := none,
    isLoggedIn := false, lastActivity := none, sessionId := none }

/-- One open tab as seen by `context.pages()`: its URL, its title, and
whether `p.title()` resolves (`titleOk = false` models the rejection that
the discovery loop catches and skips). -/
structure PageInfo where
  url : String
  title : String
  titleOk : Bool := true
deriving DecidableEq

/-- What `new Date()` exposes: `getMonth()` (0-based), `getDate()`,
`getFullYear()`. -/
structure JsDate where
  month0 : Nat
  day : Nat
  year : Nat
deriving DecidableEq

/-- The read-only outside world for one top-level call: `process.env`
entries, the `Date.now()` reading, and the outcome of every page probe.
`envSessionTimeout` models an idle-timeout entry of `process.env`; the
source reads no such entry (the relevant env vars it does read are
`TMS_USERNAME`, `TMS_PASSWORD`, `HEADLESS`, `PDF_SAVE_PATH`). -/
structure Env where
  clock : Nat
  today : JsDate := { month0 := 0, day := 1, year := 2025 }
  tmsUsername : Option String := none
  tmsPassword : Option String := none
  envPdfSavePath : Option String := none
  envHeadless : Option String := none
  envSessionTimeout : Option String := none
  /-- Whether `page.evaluate` resolves (the liveness probe). -/
  evaluateOk : Bool := true
  /-- a locator probe inside `verifyLogin` rejects. -/
  verifyThrows : Bool := false
  /-- Count from `page.locator` on the username text in `verifyLogin`. -/
  userTextCount : Nat := 0
  /-- Count from `page.locator` on the login-submit control in `verifyLogin`. -/
  userSubmitCount : Nat := 0
  /-- The `page.url()` of the main page. -/
  mainUrl : String := ""
  /-- Count of the username textbox in `performLogin`. -/
  usernameFieldCount : Nat := 0
  /-- post-submit `locator('text=' + USERNAME.toUpperCase()).count()`. -/
  loginVerifyCount : Nat := 0
  /-- Result of the error-banner `textContent()` probe: `none` models a
  rejection (no such element), `some t` the resolved text. -/
  errorBannerText : Option String := none
  /-- The `context.pages()` list as observed on discovery attempt `i`. -/
  pagesAt : Nat → List PageInfo := fun _ => []
  /-- Whether `browser.close()` rejects (the rejection is swallowed). -/
  closeThrows : Bool := false
  /-- Whether the recursive `fs.mkdir` of the storage directory resolves. -/
  mkdirOk : Bool := true
  /-- the export stage (bringToFront / waitForLoadState / pdf / close on the
  popup) resolves. -/
  exportOk : Bool := true

/-- Observable resource effects of a call. -/
structure Effects where
  launchCount : Nat := 0
  nextHandle : Nat := 1
  closedHandles : List Nat := []
  log : List String := []
deriving DecidableEq

/-- Status object `{active, loggedIn, sessionId, lastActivity, uptime, error}` as returned
by `checkBrowserSession` (the source returns objects with optional fields). -/
structure SessionStatus where
  active : Bool
  loggedIn : Bool
  sessionId : Option String := none
  lastActivity : Option Nat := none
  uptime : Option Nat := none
  errMsg : Option String := none
deriving DecidableEq

instance {α β : Type} [DecidableEq α] [DecidableEq β] :
    DecidableEq (Except α β) := fun a b =>
  match a, b with
  | .error x, .error y =>
    if h : x = y then .isTrue (by rw [h])
    else .isFalse (fun he => h (Except.error.inj he))
  | .ok x, .ok y =>
    if h : x = y then .isTrue (by rw [h])
    else .isFalse (fun he => h (Except.ok.inj he))
  | .error _, .ok _ => .isFalse (fun he => Except.noConfusion he)
  | .ok _, .error _ => .isFalse (fun he => Except.noConfusion he)

/-- Model of `closeBrowserSession()` (lines 512-530): attempt `browser.close()` when a
browser handle exists — a rejection is caught and only logged — then reset
every field of the global session object. -/
def closeBrowserSession (E : Env) (s : BrowserSession) (fx : Effects) :
    BrowserSession × Effects :=
  let fx1 :=
    match s.browser with
    | some b =>
      let fx' := { fx with closedHandles := fx.closedHandles ++ [b] }
      if E.closeThrows then
        { fx' with log := fx'.log ++ ["[SESSION] Error closing browser"] }
      else fx'
    | none => fx
  (emptySession, fx1)

/-- Model of `verifyLogin()` (lines 217-251).  Returns `false` when there is no page
handle; any rejection inside the `try` (including the `TypeError` from
`username.toUpperCase()` when `TMS_USERNAME` is unset) is caught and yields
`false`.  Otherwise: username text rendered → `true`; login-submit control
present → `false`; URL contains `/login` or `security` → `false`; else
assume logged in. -/
def verifyLogin (E : Env) (s : BrowserSession) : Bool :=
  match s.page with
  | none => false
  | some _ =>
    match E.tmsUsername with
    | none => false
    | some _ =>
      if E.verifyThrows then false
      else if E.userTextCount > 0 then true
      else if E.userSubmitCount > 0 then false
      else if jsIncludes E.mainUrl "/login" || jsIncludes E.mainUrl "security" then false
      else true

/-- Model of lines 182-183:
`lastActivity && (now - lastActivity) > SESSION_TIMEOUT`.
JS truthiness: `null` and the number `0` are both falsy, so a session whose
timestamp is `0` is never considered timed out. -/
def sessionTimedOut (E : Env) (s : BrowserSession) : Bool :=
  match s.lastActivity with
  | none => false
  | some t => t != 0 && (E.clock - t) > SESSION_TIMEOUT

/-- The status object returned on the live path of `checkBrowserSession`
(lines 194-200). -/
def activeStatus (E : Env) (s : BrowserSession) : SessionStatus :=
  { active := true, loggedIn := verifyLogin E s, sessionId := s.sessionId,
    lastActivity := s.lastActivity,
    uptime := some (E.clock - s.lastActivity.getD 0) }

/-- Model of `checkBrowserSession()` (lines 176-214): an active, non-timed-out session
is probed with `page.evaluate`; on success the status (with `verifyLogin`'s
answer) is returned and nothing is mutated; a probe failure or a timeout
closes the session. -/
def checkBrowserSession (E : Env) (s : BrowserSession) (fx : Effects) :
    SessionStatus × BrowserSession × Effects :=
  let isActive := s.browser.isSome && s.context.isSome && s.page.isSome
  let isTimedOut := sessionTimedOut E s
  if isActive && !isTimedOut then
    if E.evaluateOk then
      (activeStatus E s, s, fx)
    else
      let r := closeBrowserSession E s fx
      ({ active := false, loggedIn := false,
         errMsg := some "Session invalid" }, r.1, r.2)
  else if isTimedOut then
    let r := closeBrowserSession E s fx
    ({ active := false, loggedIn := false }, r.1, r.2)
  else
    ({ active := false, loggedIn := false }, s, fx)

/-- Model of `performLogin()` (lines 302-361): rejects when no page handle exists;
navigates to the fixed entry URL, best-effort dismisses cookie consent (no
modelled effect), then looks for the username textbox.  If the login form is
present it fills both credentials (filling an `undefined` credential rejects
— the source reads the env vars here without a guard), submits, waits, and
sets `isLoggedIn` from the post-submit username-text probe; otherwise it
assumes the session is already authenticated.  Finally `lastActivity` is
refreshed. -/
def performLogin (E : Env) (s : BrowserSession) (fx : Effects) :
    Except String Unit × BrowserSession × Effects :=
  match s.page with
  | none => (.error "No browser session available", s, fx)
  | some _ =>
    if E.usernameFieldCount > 0 then
      match E.tmsUsername, E.tmsPassword with
      | some _, some _ =>
        let li := E.loginVerifyCount > 0
        (.ok (), { s with isLoggedIn := li, lastActivity := some E.clock }, fx)
      | _, _ =>
        (.error "locator.fill: value: expected string, got undefined", s, fx)
    else
      (.ok (), { s with isLoggedIn := true, lastActivity := some E.clock }, fx)

/-- Model of `initializeBrowserSession()` (lines 254-299): reuse an active logged-in
session (refreshing `lastActivity`); re-login on an active but logged-out
session; otherwise check the two required secrets (throwing before anything
is launched when either is missing), launch a fresh browser/context/page,
mint `sessionId` from `Date.now().toString()`, log in, and return a final
`checkBrowserSession()` status. -/
def initializeBrowserSession (E : Env) (s : BrowserSession) (fx : Effects) :
    Except String SessionStatus × BrowserSession × Effects :=
  let r0 := checkBrowserSession E s fx
  let st := r0.1
  let s1 := r0.2.1
  let fx1 := r0.2.2
  if st.active && st.loggedIn then
    (.ok st, { s1 with lastActivity := some E.clock }, fx1)
  else if st.active && !st.loggedIn then
    let r1 := performLogin E s1 fx1
    match r1.1 with
    | .error e => (.error e, r1.2.1, r1.2.2)
    | .ok _ =>
      let r2 := checkBrowserSession E r1.2.1 r1.2.2
      (.ok r2.1, r2.2.1, r2.2.2)
  else
    if credMissing E.tmsUsername || credMissing E.tmsPassword then
      (.error "TMS_USERNAME and TMS_PASSWORD must be configured", s1, fx1)
    else
      let b := fx1.nextHandle
      let fx2 := { fx1 with nextHandle := fx1.nextHandle + 3,
                            launchCount := fx1.launchCount + 1 }
      let s2 := { s1 with browser := some b, context := some (b + 1),
                          page := some (b + 2),
                          sessionId := some (Nat.repr E.clock),
                          lastActivity := some E.clock }
      let r1 := performLogin E s2 fx2
      match r1.1 with
      | .error e => (.error e, r1.2.1, r1.2.2)
      | .ok _ =>
        let r2 := checkBrowserSession E r1.2.1 r1.2.2
        (.ok r2.1, r2.2.1, r2.2.2)

/-- The `/api/session/reset` handler (lines 89-94): close unconditionally,
then rebuild via `initializeBrowserSession` and return its status. -/
def resetSession (E : Env) (s : BrowserSession) (fx : Effects) :
    Except String SessionStatus × BrowserSession × Effects :=
  let r := closeBrowserSession E s fx
  initializeBrowserSession E r.1 r.2

/-- The tab-matching criterion of the discovery loop (lines 436-437):
URL contains `LoadReport` or `loadID=<loadNumber>`, or the title is truthy
and contains `Load Report` / `Carrier Load Report`. -/
def pageMatches (loadNumber : String) (p : PageInfo) : Bool :=
  jsIncludes p.url "LoadReport" || jsIncludes p.url ("loadID=" ++ loadNumber) ||
    (!p.title.isEmpty &&
      (jsIncludes p.title "Load Report" || jsIncludes p.title "Carrier Load Report"))

/-- The inner `for (const p of pages)` scan (lines 430-446): first matching
tab wins, in tab-open order; a tab whose title probe rejects is skipped. -/
def scanPages (loadNumber : String) : List PageInfo → Option PageInfo
  | [] => none
  | p :: ps =>
    if !p.titleOk then scanPages loadNumber ps
    else if pageMatches loadNumber p then some p
    else scanPages loadNumber ps

/-- Source: `const maxRetries = 5;` (line 405). -/
def maxRetries : Nat := 5

/-- The bounded retry loop (lines 407-449), attempts numbered from
`attempt`, `fuel` attempts remaining.  The attempt-2 best-effort click on a
result link has no modelled effect beyond what `pagesAt` already reflects. -/
def discoverFrom (loadNumber : String) (pagesAt : Nat → List PageInfo) :
    Nat → Nat → Option PageInfo
  | _, 0 => none
  | attempt, fuel + 1 =>
    match scanPages loadNumber (pagesAt attempt) with
    | some p => some p
    | none => discoverFrom loadNumber pagesAt (attempt + 1) fuel

/-- The whole discovery phase: attempts `1..maxRetries`. -/
def discoverLoadReport (loadNumber : String) (pagesAt : Nat → List PageInfo) :
    Option PageInfo :=
  discoverFrom loadNumber pagesAt 1 maxRetries

/-- JS `String(x).padStart(2, '0')`. -/
def padStart2 (s : String) : String :=
  if s.length < 2 then String.mk (List.replicate (2 - s.length) '0') ++ s else s

/-- JS `String(x).slice(-2)`: the last two characters. -/
def sliceLastTwo (s : String) : String :=
  String.mk (s.toList.drop (s.toList.length - 2))

/-- Lines 473-476: `MM.DD.YY` from `getMonth()+1`, `getDate()`,
`getFullYear()`. -/
def dateStamp (d : JsDate) : String :=
  padStart2 (Nat.repr (d.month0 + 1)) ++ "." ++ padStart2 (Nat.repr d.day) ++
    "." ++ sliceLastTwo (Nat.repr d.year)

/-- Line 477: the exported artifact's filename. -/
def pdfFilename (loadNumber : String) (d : JsDate) : String :=
  "RATECON MULDER BROTHERS " ++ loadNumber ++ " " ++ dateStamp d ++ ".pdf"

/-- Model of `path.join` for an absolute directory and a plain filename. -/
def pathJoin (a b : String) : String :=
  if a.toList.getLast? = some '/' then a ++ b else a ++ "/" ++ b

/-- The message of the error thrown at line 466. -/
def notFoundMsg (loadNumber : String) : String :=
  "Load Report page not found for load " ++ loadNumber ++
    ". The load may not exist or you may not have access."

/-- The console diagnostics of the discovery-exhaustion branch (lines
451-464): the current main-page URL is logged, then any visible (truthy)
error/warning/alert text. -/
def notFoundFx (E : Env) (fx : Effects) : Effects :=
  let fx2 := { fx with log := fx.log ++ ["[AUTOMATION] Still on page: " ++ E.mainUrl] }
  match E.errorBannerText with
  | some t =>
    if !t.isEmpty then
      { fx2 with log := fx2.log ++ ["[AUTOMATION] Error on page: " ++ t] }
    else fx2
  | none => fx2

/-- Model of `executeLoadConfirmation(loadNumber)` (lines 364-509): ensure the storage
directory, ensure a logged-in session, search (oracle-absorbed), run the
bounded discovery loop; on exhaustion log the current URL plus any visible
error/warning/alert text and throw the not-found error, leaving the session
untouched; on success export the PDF under the deterministic filename, close
the popup, refresh `lastActivity`, and return the path. -/
def executeLoadConfirmation (E : Env) (loadNumber : String)
    (s : BrowserSession) (fx : Effects) :
    Except String String × BrowserSession × Effects :=
  let pdfSavePath := jsEnvOr E.envPdfSavePath "/app/temp"
  if !E.mkdirOk then (.error "mkdir failed", s, fx)
  else
    let r0 := initializeBrowserSession E s fx
    match r0.1 with
    | .error e => (.error e, r0.2.1, r0.2.2)
    | .ok st =>
      let s1 := r0.2.1
      let fx1 := r0.2.2
      if !(st.active && st.loggedIn) then
        (.error "Failed to establish logged-in session", s1, fx1)
      else
        match discoverLoadReport loadNumber E.pagesAt with
        | none =>
          (.error (notFoundMsg loadNumber), s1, notFoundFx E fx1)
        | some _ =>
          if !E.exportOk then (.error "pdf export failed", s1, fx1)
          else
            let pdfPath := pathJoin pdfSavePath (pdfFilename loadNumber E.today)
            (.ok pdfPath, { s1 with lastActivity := some E.clock }, fx1)

/-- The session produced by the fresh-launch path of
`initializeBrowserSession` (lines 279-296) followed by `performLogin`: new
handles from the launch counter, freshly minted `sessionId` and
`lastActivity`, and the login outcome `li`. -/
def freshSession (E : Env) (s0 : BrowserSession) (fx0 : Effects) (li : Bool) :
    BrowserSession :=
  { s0 with browser := some fx0.nextHandle, context := some (fx0.nextHandle + 1),
            page := some (fx0.nextHandle + 2), isLoggedIn := li,
            lastActivity := some E.clock, sessionId := some (Nat.repr E.clock) }

/-- The effects of one browser launch (line 279). -/
def launchFx (fx0 : Effects) : Effects :=
  { fx0 with nextHandle := fx0.nextHandle + 3, launchCount := fx0.launchCount + 1 }

/-! Concrete fixtures for the claim witnesses and counterexamples. -/

def c6Env : Env := { clock := 0 }

def c7Env : Env := { clock := 2000001, tmsUsername := some "U", userTextCount := 1 }

def c7Sess : BrowserSession :=
  { browser := some 1, context := some 2, page := some 3,
    isLoggedIn := true, lastActivity := some 1, sessionId := some "100" }

def c7LiveEnv : Env := { clock := 5, tmsUsername := some "U", userTextCount := 1 }

def c7LiveSess : BrowserSession :=
  { browser := some 1, context := some 2, page := some 3,
    isLoggedIn := true, lastActivity := some 3, sessionId := some "3" }

def c8Env : Env :=
  { clock := 5000, tmsUsername := some "U", userTextCount := 1,
    envSessionTimeout := some "1000" }

def c8Sess : BrowserSession :=
  { browser := some 1, context := some 2, page := some 3,
    isLoggedIn := true, lastActivity := some 1, sessionId := some "1" }

/-- An arbitrary fully-populated prior session whose `sessionId` was minted
from an earlier clock reading `tid`. -/
def oldSession (b c p : Nat) (li0 : Bool) (t tid : Nat) : BrowserSession :=
  { browser := some b, context := some c, page := some p,
    isLoggedIn := li0, lastActivity := some t,
    sessionId := some (Nat.repr tid) }

def c2Env : Env :=
  { clock := 2000000, tmsUsername := some "U", tmsPassword := some "P",
    userTextCount := 1 }

def c3Env : Env :=
  { clock := 42, tmsUsername := some "U", tmsPassword := some "P",
    userTextCount := 1 }

def c4Env : Env :=
  { clock := 5, tmsUsername := some "U", tmsPassword := some "P",
    userTextCount := 1 }

def c4Sess : BrowserSession :=
  { browser := some 1, context := some 2, page := some 3,
    isLoggedIn := true, lastActivity := some 5, sessionId := some "5" }

def c4St : SessionStatus :=
  { active := true, loggedIn := true, sessionId := some "5",
    lastActivity := some 5, uptime := some 0 }

def c1Env : Env :=
  { clock := 10, tmsUsername := some "U", tmsPassword := some "P",
    userTextCount := 1, mainUrl := "httpz://main",
    errorBannerText := some "Some warning" }

def c1Sess1 : BrowserSession :=
  { browser := some 1, context := some 2, page := some 3,
    isLoggedIn := true, lastActivity := some 10, sessionId := some "10" }

def c1Fx1 : Effects := { launchCount := 1, nextHandle := 4 }

def c1St : SessionStatus :=
  { active := true, loggedIn := true, sessionId := some "10",
    lastActivity := some 10, uptime := some 0 }

def c5Env : Env :=
  { clock := 50, today := { month0 := 0, day := 5, year := 2025 },
    tmsUsername := some "USER", tmsPassword := some "PW",
    userTextCount := 1,
    pagesAt := fun _ => [{ url := "LoadReport", title := "T" }] }

def c5Path : String := "/app/temp/RATECON MULDER BROTHERS 194828381 01.05.25.pdf"

def c5Sess1 : BrowserSession :=
  { browser := some 1, context := some 2, page := some 3,
    isLoggedIn := true, lastActivity := some 50, sessionId := some "50" }

def c5Fx1 : Effects := { launchCount := 1, nextHandle := 4 }

/-!  `sessionId` is minted as `Date.now().toString()`; distinct clock
readings therefore mint distinct ids.  The next block proves that `Nat.repr`
is injective, via a structural description of the decimal digit list. -/

/-- Decimal digit characters of `n`, most significant first. -/
def decDigits (n : Nat) : List Char :=
  if n < 10 then [Nat.digitChar n]
  else decDigits (n / 10) ++ [Nat.digitChar (n % 10)]
termination_by n
decreasing_by exact Nat.div_lt_self (by omega) (by omega)

/-- Numeric value of a decimal digit character. -/
def digitCharVal (c : Char) : Nat := c.toNat - 48

theorem digitCharVal_digitChar (d : Nat) (h : d < 10) :
    digitCharVal (Nat.digitChar d) = d := by
  interval_cases d <;> rfl

/-- Value of a digit list, most significant first. -/
def valOfDigits (l : List Char) : Nat :=
  l.foldl (fun a c => 10 * a + digitCharVal c) 0

theorem valOfDigits_append_singleton (xs : List Char) (c : Char) :
    valOfDigits (xs ++ [c]) = 10 * valOfDigits xs + digitCharVal c := by
  simp [valOfDigits, List.foldl_append]

theorem valOfDigits_decDigits (n : Nat) : valOfDigits (decDigits n) = n := by
  induction n using Nat.strong_induction_on with
  | _ n ih =>
    rw [decDigits]
    split
    · next h =>
      simp [valOfDigits, digitCharVal_digitChar n h]
    · next h =>
      rw [valOfDigits_append_singleton,
        ih (n / 10) (Nat.div_lt_self (by omega) (by omega)),
        digitCharVal_digitChar (n % 10) (Nat.mod_lt n (by omega))]
      omega

theorem decDigits_inj {a b : Nat} (h : decDigits a = decDigits b) : a = b := by
  have ha := valOfDigits_decDigits a
  rw [h, valOfDigits_decDigits] at ha
  omega

theorem toDigitsCore_eq_decDigits :
    ∀ (fuel n : Nat) (ds : List Char), n < 10 ^ (fuel + 1) →
      Nat.toDigitsCore 10 (fuel + 1) n ds = decDigits n ++ ds := by
  intro fuel
  induction fuel with
  | zero =>
    intro n ds hn
    have h10 : n < 10 := by simpa using hn
    have hdiv : n / 10 = 0 := Nat.div_eq_of_lt h10
    have hmod : n % 10 = n := Nat.mod_eq_of_lt h10
    simp [Nat.toDigitsCore, hdiv, hmod, decDigits, h10]
  | succ fuel ih =>
    intro n ds hn
    by_cases hdiv : n / 10 = 0
    · have h10 : n < 10 := by
        have := Nat.div_add_mod n 10
        have := Nat.mod_lt n (show 0 < 10 by omega)
        omega
      have hmod : n % 10 = n := Nat.mod_eq_of_lt h10
      simp [Nat.toDigitsCore, hdiv, hmod, decDigits, h10]
    · have h10 : ¬ n < 10 := by
        intro h
        exact hdiv (Nat.div_eq_of_lt h)
      have hlt : n / 10 < 10 ^ (fuel + 1) := by
        have : n < 10 * 10 ^ (fuel + 1) := by
          calc n < 10 ^ (fuel + 1 + 1) := hn
          _ = 10 * 10 ^ (fuel + 1) := by ring
        exact Nat.div_lt_of_lt_mul this
      have step :
          Nat.toDigitsCore 10 (fuel + 1 + 1) n ds =
            Nat.toDigitsCore 10 (fuel + 1) (n / 10) (Nat.digitChar (n % 10) :: ds) := by
        simp [Nat.toDigitsCore, hdiv]
      rw [step, ih (n / 10) (Nat.digitChar (n % 10) :: ds) hlt]
      conv_rhs => rw [decDigits]
      simp [h10]

theorem repr_eq_decDigits (n : Nat) : Nat.repr n = (decDigits n).asString := by
  have hn : n < 10 ^ (n + 1) := by
    calc n < 10 ^ n := Nat.lt_pow_self (by omega) n
    _ ≤ 10 ^ (n + 1) := Nat.pow_le_pow_right (by omega) (Nat.le_succ n)
  have : Nat.toDigits 10 n = decDigits n := by
    have := toDigitsCore_eq_decDigits n n [] hn
    simpa [Nat.toDigits] using this
  rw [Nat.repr, this]

theorem natRepr_inj {a b : Nat} (h : Nat.repr a = Nat.repr b) : a = b := by
  rw [repr_eq_decDigits, repr_eq_decDigits] at h
  exact decDigits_inj (List.asString_inj.mp h)

/-! Helper lemmas about the session functions, shared by the claims. -/

theorem verifyLogin_set_lastActivity (E : Env) (s : BrowserSession)
    (x : Option Nat) : verifyLogin E { s with lastActivity := x } = verifyLogin E s := rfl

theorem verifyLogin_set_login (E : Env) (s : BrowserSession) (b : Bool)
    (x : Option Nat) :
    verifyLogin E { s with isLoggedIn := b, lastActivity := x } = verifyLogin E s := rfl

/-- Anatomy of an `active = true` answer of `checkBrowserSession`: it can
only come from the probe branch, which mutates nothing. -/
theorem checkBrowserSession_active (E : Env) (s : BrowserSession) (fx : Effects)
    (h : (checkBrowserSession E s fx).1.active = true) :
    checkBrowserSession E s fx = (activeStatus E s, s, fx) ∧
    s.browser.isSome = true ∧ s.context.isSome = true ∧ s.page.isSome = true ∧
    E.evaluateOk = true ∧ sessionTimedOut E s = false := by
  unfold checkBrowserSession at h ⊢
  cases hA : (s.browser.isSome && s.context.isSome && s.page.isSome) <;>
    cases hT : sessionTimedOut E s <;>
      cases hE : E.evaluateOk <;>
        simp_all

/-- Anatomy of the `return await checkBrowserSession()` tail of
`initializeBrowserSession`, given that the returned status is active. -/
theorem initFinish_anatomy (E : Env) (s2 : BrowserSession) (fx2 : Effects)
    (st : SessionStatus) (s1 : BrowserSession) (fx1 : Effects)
    (h : ((.ok (checkBrowserSession E s2 fx2).1 : Except String SessionStatus),
          (checkBrowserSession E s2 fx2).2.1,
          (checkBrowserSession E s2 fx2).2.2) = (.ok st, s1, fx1))
    (ha : st.active = true) :
    s1 = s2 ∧ fx1 = fx2 ∧ st.sessionId = s2.sessionId ∧
    st.loggedIn = verifyLogin E s2 ∧
    s2.browser.isSome = true ∧ s2.context.isSome = true ∧
    s2.page.isSome = true ∧ E.evaluateOk = true := by
  have hst : (checkBrowserSession E s2 fx2).1 = st :=
    Except.ok.inj (congrArg Prod.fst h)
  have hs : (checkBrowserSession E s2 fx2).2.1 = s1 :=
    congrArg (fun t => t.2.1) h
  have hfx : (checkBrowserSession E s2 fx2).2.2 = fx1 :=
    congrArg (fun t => t.2.2) h
  have hact : (checkBrowserSession E s2 fx2).1.active = true := by
    rw [hst]; exact ha
  obtain ⟨heq, hb, hcx, hpg, hev, -⟩ := checkBrowserSession_active E s2 fx2 hact
  rw [heq] at hst hs hfx
  exact ⟨hs.symm, hfx.symm, by rw [← hst]; rfl, by rw [← hst]; rfl, hb, hcx, hpg, hev⟩

/-- Anatomy of a successful, active `initializeBrowserSession` result: the
resulting session has live handles, the returned status mirrors its
`sessionId` and `verifyLogin` answer, its activity time is the current
clock, and the liveness probe must have succeeded. -/
theorem initializeBrowserSession_ok_active (E : Env) (s : BrowserSession)
    (fx : Effects) (st : SessionStatus) (s1 : BrowserSession) (fx1 : Effects)
    (h : initializeBrowserSession E s fx = (.ok st, s1, fx1))
    (ha : st.active = true) :
    s1.browser.isSome = true ∧ s1.context.isSome = true ∧ s1.page.isSome = true ∧
    st.sessionId = s1.sessionId ∧ st.loggedIn = verifyLogin E s1 ∧
    s1.lastActivity = some E.clock ∧ E.evaluateOk = true := by
  unfold initializeBrowserSession at h
  rcases hc : checkBrowserSession E s fx with ⟨st0, s0, fx0⟩
  rw [hc] at h
  dsimp only at h
  by_cases c1 : (st0.active && st0.loggedIn) = true
  · -- reuse path
    rw [if_pos c1] at h
    have hA : st0.active = true := by
      simp only [Bool.and_eq_true] at c1; exact c1.1
    have hst : st0 = st := Except.ok.inj (congrArg Prod.fst h)
    have hs1' : ({ s0 with lastActivity := some E.clock } : BrowserSession) = s1 :=
      congrArg (fun t => t.2.1) h
    have hfx' : fx0 = fx1 := congrArg (fun t => t.2.2) h
    subst hst
    subst hs1'
    have hact : (checkBrowserSession E s fx).1.active = true := by
      rw [hc]; exact hA
    obtain ⟨heq, hb, hcx, hpg, hev, -⟩ := checkBrowserSession_active E s fx hact
    rw [hc] at heq
    have h1 : st0 = activeStatus E s := congrArg Prod.fst heq
    have h2 : s0 = s := congrArg (fun t => t.2.1) heq
    refine ⟨?_, ?_, ?_, ?_, ?_, rfl, hev⟩
    · rw [h2]; exact hb
    · rw [h2]; exact hcx
    · rw [h2]; exact hpg
    · rw [h1, h2]; rfl
    · rw [h1, h2]
      exact (verifyLogin_set_lastActivity E s _).symm
  · rw [if_neg c1] at h
    by_cases c2 : (st0.active && !st0.loggedIn) = true
    · -- re-login path
      rw [if_pos c2] at h
      have hA : st0.active = true := by
        simp only [Bool.and_eq_true] at c2; exact c2.1
      have hact : (checkBrowserSession E s fx).1.active = true := by
        rw [hc]; exact hA
      obtain ⟨heq, hb0, hcx0, hp0, hev0, -⟩ := checkBrowserSession_active E s fx hact
      rw [hc] at heq
      have h2 : s0 = s := congrArg (fun t => t.2.1) heq
      have hp0' : s0.page.isSome = true := by rw [h2]; exact hp0
      rcases hpg : s0.page with _ | p
      · rw [hpg] at hp0'; simp at hp0'
      unfold performLogin at h
      rw [hpg] at h
      by_cases hUF : E.usernameFieldCount > 0
      · rw [if_pos hUF] at h
        rcases hu : E.tmsUsername with _ | u
        · rw [hu] at h; simp at h
        rcases hpw : E.tmsPassword with _ | pw
        · rw [hu, hpw] at h; simp at h
        rw [hu, hpw] at h
        obtain ⟨hs1, -, hsid, hli, hb, hcx, hpg2, hev⟩ :=
          initFinish_anatomy E _ _ st s1 fx1 h ha
        subst hs1
        exact ⟨hb, hcx, hpg2, hsid, hli, rfl, hev⟩
      · rw [if_neg hUF] at h
        obtain ⟨hs1, -, hsid, hli, hb, hcx, hpg2, hev⟩ :=
          initFinish_anatomy E _ _ st s1 fx1 h ha
        subst hs1
        exact ⟨hb, hcx, hpg2, hsid, hli, rfl, hev⟩
    · -- fresh-launch path
      rw [if_neg c2] at h
      by_cases c3 : (credMissing E.tmsUsername || credMissing E.tmsPassword) = true
      · rw [if_pos c3] at h
        simp at h
      · rw [if_neg c3] at h
        rcases hu : E.tmsUsername with _ | u
        · rw [hu] at c3; simp [credMissing] at c3
        rcases hpw : E.tmsPassword with _ | pw
        · rw [hpw] at c3; simp [credMissing] at c3
        unfold performLogin at h
        rw [hu, hpw] at h
        by_cases hUF : E.usernameFieldCount > 0
        · rw [if_pos hUF] at h
          obtain ⟨hs1, -, hsid, hli, hb, hcx, hpg2, hev⟩ :=
            initFinish_anatomy E _ _ st s1 fx1 h ha
          subst hs1
          exact ⟨hb, hcx, hpg2, hsid, hli, rfl, hev⟩
        · rw [if_neg hUF] at h
          obtain ⟨hs1, -, hsid, hli, hb, hcx, hpg2, hev⟩ :=
            initFinish_anatomy E _ _ st s1 fx1 h ha
          subst hs1
          exact ⟨hb, hcx, hpg2, hsid, hli, rfl, hev⟩

/-- A live session (handles present, not timed out, probe succeeding) makes
`checkBrowserSession` a pure read: state and effects unchanged, and the
activity timestamp in the status is the stored one. -/
theorem checkBrowserSession_live (E : Env) (s : BrowserSession) (fx : Effects)
    (hb : s.browser.isSome = true) (hcx : s.context.isSome = true)
    (hpg : s.page.isSome = true) (hT : sessionTimedOut E s = false)
    (hev : E.evaluateOk = true) :
    checkBrowserSession E s fx = (activeStatus E s, s, fx) := by
  unfold checkBrowserSession
  rw [hb, hcx, hpg, hT, hev]
  rfl

/-- A timed-out session is closed by `checkBrowserSession` and an inactive
status is returned. -/
theorem checkBrowserSession_timedOut (E : Env) (s : BrowserSession)
    (fx : Effects) (hT : sessionTimedOut E s = true) :
    checkBrowserSession E s fx =
      ({ active := false, loggedIn := false }, emptySession,
       (closeBrowserSession E s fx).2) := by
  unfold checkBrowserSession
  rw [hT]
  rw [if_neg (by simp)]
  rw [if_pos rfl]
  rfl

theorem closeBrowserSession_fst (E : Env) (s : BrowserSession) (fx : Effects) :
    (closeBrowserSession E s fx).1 = emptySession := rfl

theorem closeBrowserSession_closedHandles (E : Env) (s : BrowserSession)
    (fx : Effects) (b : Nat) (hb : s.browser = some b) :
    (closeBrowserSession E s fx).2.closedHandles = fx.closedHandles ++ [b] := by
  unfold closeBrowserSession
  rw [hb]
  cases hct : E.closeThrows <;> simp [hct]

/-- The fresh-launch path of `initializeBrowserSession`: on an inactive check
result with both secrets present and a working probe, a browser is launched,
login runs, and the final check returns the live status of the fresh
session.  `li` is the login outcome. -/
theorem init_fresh (E : Env) (s : BrowserSession) (fx : Effects)
    (st0 : SessionStatus) (s0 : BrowserSession) (fx0 : Effects)
    (hc : checkBrowserSession E s fx = (st0, s0, fx0))
    (hA : st0.active = false)
    (hcu : credMissing E.tmsUsername = false)
    (hcp : credMissing E.tmsPassword = false)
    (hev : E.evaluateOk = true) :
    ∃ li, initializeBrowserSession E s fx =
      (.ok (activeStatus E (freshSession E s0 fx0 li)),
       freshSession E s0 fx0 li, launchFx fx0) := by
  unfold initializeBrowserSession
  rw [hc]
  dsimp only
  rw [if_neg (by simp [hA]), if_neg (by simp [hA])]
  rw [if_neg (by rw [hcu, hcp]; decide)]
  unfold performLogin
  rcases hu : E.tmsUsername with _ | u
  · rw [hu] at hcu; simp [credMissing] at hcu
  rcases hpw : E.tmsPassword with _ | pw
  · rw [hpw] at hcp; simp [credMissing] at hcp
  by_cases hUF : E.usernameFieldCount > 0
  · rw [if_pos hUF]
    have hT2 : sessionTimedOut E
        (freshSession E s0 fx0 (decide (E.loginVerifyCount > 0))) = false := by
      simp [sessionTimedOut, freshSession]
    have hchk2 := checkBrowserSession_live E
      (freshSession E s0 fx0 (decide (E.loginVerifyCount > 0))) (launchFx fx0)
      rfl rfl rfl hT2 hev
    exact ⟨decide (E.loginVerifyCount > 0),
      congrArg (fun r => ((Except.ok r.1 : Except String SessionStatus),
        r.2.1, r.2.2)) hchk2⟩
  · rw [if_neg hUF]
    have hT2 : sessionTimedOut E (freshSession E s0 fx0 true) = false := by
      simp [sessionTimedOut, freshSession]
    have hchk2 := checkBrowserSession_live E (freshSession E s0 fx0 true)
      (launchFx fx0) rfl rfl rfl hT2 hev
    exact ⟨true,
      congrArg (fun r => ((Except.ok r.1 : Except String SessionStatus),
        r.2.1, r.2.2)) hchk2⟩

theorem scanPages_none (loadNumber : String) (l : List PageInfo)
    (h : ∀ p, p ∈ l → pageMatches loadNumber p = false) :
    scanPages loadNumber l = none := by
  induction l with
  | nil => rfl
  | cons p ps ih =>
    unfold scanPages
    by_cases ht : (!p.titleOk) = true
    · rw [if_pos ht]
      exact ih fun q hq => h q (List.mem_cons_of_mem p hq)
    · rw [if_neg ht, if_neg (by simp [h p (List.mem_cons_self p ps)])]
      exact ih fun q hq => h q (List.mem_cons_of_mem p hq)

theorem discoverFrom_none (loadNumber : String) (pg : Nat → List PageInfo) :
    ∀ (f a : Nat),
      (∀ i, a ≤ i → i < a + f → scanPages loadNumber (pg i) = none) →
      discoverFrom loadNumber pg a f = none := by
  intro f
  induction f with
  | zero => intro a h; rfl
  | succ f ih =>
    intro a h
    unfold discoverFrom
    rw [h a le_rfl (by omega)]
    exact ih (a + 1) fun i h1 h2 => h i (by omega) (by omega)

/-- The discovery loop consults only attempts `a ≤ i < a + f`. -/
theorem discoverFrom_congr (loadNumber : String) (pg pg' : Nat → List PageInfo) :
    ∀ (f a : Nat), (∀ i, a ≤ i → i < a + f → pg' i = pg i) →
      discoverFrom loadNumber pg' a f = discoverFrom loadNumber pg a f := by
  intro f
  induction f with
  | zero => intro a h; rfl
  | succ f ih =>
    intro a h
    unfold discoverFrom
    rw [h a le_rfl (by omega)]
    rw [ih (a + 1) fun i h1 h2 => h i (by omega) (by omega)]

theorem notFoundFx_log_mem (E : Env) (fx : Effects) :
    ("[AUTOMATION] Still on page: " ++ E.mainUrl) ∈ (notFoundFx E fx).log := by
  unfold notFoundFx
  rcases E.errorBannerText with _ | t
  · simp
  · by_cases ht : (!t.isEmpty) = true <;> simp [ht]

/-- C6: with either required secret absent (or empty) in the process
environment and no session existing, session initialization throws the
configuration error before any browser is launched: the session stays
empty and the effects (launch counter included) are untouched. -/
theorem c6_missing_secrets (E : Env) (fx : Effects)
    (hm : (credMissing E.tmsUsername || credMissing E.tmsPassword) = true) :
    initializeBrowserSession E emptySession fx =
      (.error "TMS_USERNAME and TMS_PASSWORD must be configured",
       emptySession, fx) := by
  unfold initializeBrowserSession
  have hchk : checkBrowserSession E emptySession fx =
      ({ active := false, loggedIn := false }, emptySession, fx) := rfl
  rw [hchk]
  dsimp only
  rw [if_neg (by decide), if_neg (by decide), if_pos hm]

theorem c6_witness :
    initializeBrowserSession c6Env emptySession { } =
      (.error "TMS_USERNAME and TMS_PASSWORD must be configured",
       emptySession, { }) :=
  c6_missing_secrets c6Env { } (by decide)

/-- C10: `closeBrowserSession` always returns normally (the only throwing
operation, `browser.close()`, sits inside try/catch), resets every session
field to the empty state even when closing rejects, and is idempotent on
the session state. -/
theorem c10_close_atomic (E E' : Env) (s : BrowserSession) (fx fx' : Effects) :
    (closeBrowserSession E s fx).1 = emptySession ∧
    (closeBrowserSession { E with closeThrows := true } s fx).1 = emptySession ∧
    (closeBrowserSession E' (closeBrowserSession E s fx).1 fx').1 =
      (closeBrowserSession E s fx).1 ∧
    (closeBrowserSession E' (closeBrowserSession E s fx).1 fx').2 = fx' :=
  ⟨rfl, rfl, rfl, rfl⟩

/-- C9: `verifyLogin` is total at the public interface — `false` on a
missing page handle, on an unset `TMS_USERNAME` (whose `toUpperCase()`
raises a `TypeError` that the catch swallows), and on any probe exception;
it never propagates an error (it is a plain function into `Bool` because
every throwing operation sits inside the source try/catch). -/
theorem c9_verifyLogin_total (E : Env) (s : BrowserSession) :
    (s.page = none → verifyLogin E s = false) ∧
    (E.tmsUsername = none → verifyLogin E s = false) ∧
    (E.verifyThrows = true → verifyLogin E s = false) := by
  refine ⟨fun h => ?_, fun h => ?_, fun h => ?_⟩
  · unfold verifyLogin; rw [h]
  · unfold verifyLogin
    cases hp : s.page
    · rfl
    · rw [h]
  · unfold verifyLogin
    cases hp : s.page
    · rfl
    · cases hu : E.tmsUsername
      · rfl
      · rw [h]; rfl

theorem c9_witness : verifyLogin { clock := 0 } emptySession = false :=
  (c9_verifyLogin_total { clock := 0 } emptySession).1 rfl

/-- C7 counterexample: the claim quantifies over every session state, but
for a session idle past the timeout the status check is not read-only — it
closes the session, clearing the handles and the activity timestamp. -/
theorem c7_counterexample :
    (checkBrowserSession c7Env c7Sess { }).2.1 ≠ c7Sess ∧
    (checkBrowserSession c7Env c7Sess { }).2.1.browser = none ∧
    c7Sess.browser = some 1 ∧
    (checkBrowserSession c7Env c7Sess { }).2.1.lastActivity = none ∧
    c7Sess.lastActivity = some 1 := by
  decide

/-- C7 (amended): the status check never refreshes the activity timestamp
(the returned status carries the stored one); on a live session — handles
present, not timed out, probe succeeding — and on a handle-less,
non-timed-out session it mutates nothing; only a timed-out or probe-failed
session is mutated (it is closed). -/
theorem c7_status_read_only (E : Env) (s : BrowserSession) (fx : Effects)
    (hT : sessionTimedOut E s = false) :
    ((s.browser.isSome && s.context.isSome && s.page.isSome) = true →
      E.evaluateOk = true →
      checkBrowserSession E s fx = (activeStatus E s, s, fx)) ∧
    ((s.browser.isSome && s.context.isSome && s.page.isSome) = false →
      checkBrowserSession E s fx =
        ({ active := false, loggedIn := false }, s, fx)) := by
  constructor
  · intro hA hev
    simp only [Bool.and_eq_true] at hA
    exact checkBrowserSession_live E s fx hA.1.1 hA.1.2 hA.2 hT hev
  · intro hA
    unfold checkBrowserSession
    rw [hA, hT]
    rw [if_neg (by decide), if_neg (by decide)]

theorem c7_witness :
    checkBrowserSession c7LiveEnv c7LiveSess { } =
      (activeStatus c7LiveEnv c7LiveSess, c7LiveSess, { }) :=
  (c7_status_read_only c7LiveEnv c7LiveSess { } (by decide)).1 (by decide) rfl

/-- C8 counterexample: with an idle-timeout override of 1000 ms present in
the environment, a session idle for 5000 ms is still treated as live — the
expiry comparison ignores the override. -/
theorem c8_counterexample :
    c8Env.envSessionTimeout = some "1000" ∧
    (5000 : Nat) - 1 > 1000 ∧
    sessionTimedOut c8Env c8Sess = false ∧
    (checkBrowserSession c8Env c8Sess { }).1.active = true := by
  decide

/-- C8 (amended): the idle-timeout threshold defaults to — and is fixed at
— 1800000 ms (1800 s); it is not configurable: the session check is
invariant under any environment timeout entry, and expiry holds exactly
when the timestamp is truthy (non-zero, per JS falsiness of `0`) and the
idle duration exceeds the built-in constant. -/
theorem c8_timeout_fixed (E : Env) (s : BrowserSession) (fx : Effects)
    (v : Option String) :
    SESSION_TIMEOUT = 1800000 ∧
    checkBrowserSession { E with envSessionTimeout := v } s fx =
      checkBrowserSession E s fx ∧
    (∀ t, s.lastActivity = some t →
      (sessionTimedOut E s = true ↔
        (t ≠ 0 ∧ E.clock - t > SESSION_TIMEOUT))) := by
  refine ⟨rfl, rfl, fun t ht => ?_⟩
  unfold sessionTimedOut
  rw [ht]
  simp

theorem c8_witness :
    SESSION_TIMEOUT = 1800000 ∧
    (sessionTimedOut c8Env c8Sess = true ↔
      ((1 : Nat) ≠ 0 ∧ c8Env.clock - 1 > SESSION_TIMEOUT)) :=
  ⟨(c8_timeout_fixed c8Env c8Sess { } none).1,
   (c8_timeout_fixed c8Env c8Sess { } none).2.2 1 rfl⟩

/-- C2: for every session whose idle duration (clock minus
`lastActivity`) exceeds the timeout, the next initialization closes the old
browser handle (recorded in the close effects), clears the session, launches
a fresh one, and returns an active status whose `sessionId` is minted from
the current clock and differs from the prior session's id.  Hypotheses:
both secrets configured, the liveness probe of the fresh session succeeds,
and the prior id was minted at a clock reading `tid ≤ lastActivity` (true
of every id the code mints), and the stored timestamp is truthy (non-zero
— a zero timestamp is falsy in JS and never expires; real `Date.now()`
readings are non-zero). -/
theorem c2_timeout_new_session (E : Env) (fx : Effects)
    (b c p t tid : Nat) (li0 : Bool)
    (hcu : credMissing E.tmsUsername = false)
    (hcp : credMissing E.tmsPassword = false)
    (hev : E.evaluateOk = true)
    (ht0 : t ≠ 0)
    (htid : tid ≤ t)
    (hto : E.clock - t > SESSION_TIMEOUT) :
    ∃ st s1 fx1,
      initializeBrowserSession E (oldSession b c p li0 t tid) fx =
        (.ok st, s1, fx1) ∧
      st.active = true ∧
      b ∈ fx1.closedHandles ∧
      st.sessionId = some (Nat.repr E.clock) ∧
      st.sessionId ≠ some (Nat.repr tid) := by
  have hT : sessionTimedOut E (oldSession b c p li0 t tid) = true := by
    simp [sessionTimedOut, oldSession]
    exact ⟨ht0, hto⟩
  have hchk := checkBrowserSession_timedOut E (oldSession b c p li0 t tid) fx hT
  obtain ⟨li, hinit⟩ := init_fresh E _ fx _ _ _ hchk rfl hcu hcp hev
  refine ⟨_, _, _, hinit, rfl, ?_, rfl, ?_⟩
  · have hch := closeBrowserSession_closedHandles E
      (oldSession b c p li0 t tid) fx b rfl
    simp [launchFx, hch]
  · intro hEq
    have h2 := Option.some.inj hEq
    have h3 := natRepr_inj h2
    omega

theorem c2_witness :
    ∃ st s1 fx1,
      initializeBrowserSession c2Env (oldSession 7 8 9 true 1 1) { } =
        (.ok st, s1, fx1) ∧
      st.active = true ∧
      7 ∈ fx1.closedHandles ∧
      st.sessionId = some (Nat.repr c2Env.clock) ∧
      st.sessionId ≠ some (Nat.repr 1) :=
  c2_timeout_new_session c2Env { } 7 8 9 1 1 true rfl rfl rfl
    (by decide) (by decide) (by decide)

/-- C3: `resetSession` closes the current session unconditionally (any close
rejection is swallowed; a held browser handle is recorded closed), then
builds a brand-new one: an active status for a session every one of whose
fields is freshly assigned (`freshSession` over the empty state), whose id
is minted from the current clock and — under the clock-monotonicity
invariant on previously minted ids — differs from the prior `sessionId`. -/
theorem c3_reset_fresh (E : Env) (s : BrowserSession) (fx : Effects)
    (hcu : credMissing E.tmsUsername = false)
    (hcp : credMissing E.tmsPassword = false)
    (hev : E.evaluateOk = true)
    (hprior : s.sessionId = none ∨
      ∃ tid, s.sessionId = some (Nat.repr tid) ∧ tid < E.clock) :
    ∃ li,
      resetSession E s fx =
        (.ok (activeStatus E
            (freshSession E emptySession (closeBrowserSession E s fx).2 li)),
         freshSession E emptySession (closeBrowserSession E s fx).2 li,
         launchFx (closeBrowserSession E s fx).2) ∧
      (activeStatus E
          (freshSession E emptySession (closeBrowserSession E s fx).2 li)).active
        = true ∧
      (freshSession E emptySession (closeBrowserSession E s fx).2 li).sessionId
        = some (Nat.repr E.clock) ∧
      (freshSession E emptySession (closeBrowserSession E s fx).2 li).sessionId
        ≠ s.sessionId ∧
      (∀ b, s.browser = some b →
        b ∈ (launchFx (closeBrowserSession E s fx).2).closedHandles) := by
  have hchk : checkBrowserSession E emptySession (closeBrowserSession E s fx).2 =
      ({ active := false, loggedIn := false }, emptySession,
       (closeBrowserSession E s fx).2) := rfl
  obtain ⟨li, hinit⟩ := init_fresh E emptySession _ _ _ _ hchk rfl hcu hcp hev
  refine ⟨li, ?_, rfl, rfl, ?_, ?_⟩
  · unfold resetSession
    exact hinit
  · rcases hprior with h0 | ⟨tid, hid, hlt⟩
    · rw [h0]
      simp [freshSession]
    · rw [hid]
      intro hEq
      have h2 := Option.some.inj hEq
      have h3 := natRepr_inj h2
      omega
  · intro b hb
    have hch := closeBrowserSession_closedHandles E s fx b hb
    simp [launchFx, hch]

theorem c3_witness :
    ∃ li,
      resetSession c3Env emptySession { } =
        (.ok (activeStatus c3Env (freshSession c3Env emptySession
            (closeBrowserSession c3Env emptySession { }).2 li)),
         freshSession c3Env emptySession
           (closeBrowserSession c3Env emptySession { }).2 li,
         launchFx (closeBrowserSession c3Env emptySession { }).2) := by
  obtain ⟨li, h, -, -, -, -⟩ :=
    c3_reset_fresh c3Env emptySession { } rfl rfl rfl (Or.inl rfl)
  exact ⟨li, h⟩

/-- C4: idempotence of session initialization under no intervening
activity: if a call returns an active, logged-in status, an immediately
following call (same oracle, clock advanced by at most the timeout) reuses
the session — same `sessionId`, only `lastActivity` refreshed, and the
effects (launch counter included) returned unchanged: no relaunch. -/
theorem c4_ensureReady_idempotent (E : Env) (s : BrowserSession) (fx : Effects)
    (st : SessionStatus) (s1 : BrowserSession) (fx1 : Effects) (c : Nat)
    (hinit : initializeBrowserSession E s fx = (.ok st, s1, fx1))
    (hact : st.active = true) (hlog : st.loggedIn = true)
    (hc : c - E.clock ≤ SESSION_TIMEOUT) :
    initializeBrowserSession { E with clock := c } s1 fx1 =
      (.ok (activeStatus { E with clock := c } s1),
       { s1 with lastActivity := some c }, fx1) ∧
    (activeStatus { E with clock := c } s1).sessionId = st.sessionId ∧
    ({ s1 with lastActivity := some c }).sessionId = s1.sessionId := by
  obtain ⟨hb, hcx, hpg, hsid, hli, hla, hev⟩ :=
    initializeBrowserSession_ok_active E s fx st s1 fx1 hinit hact
  have hT2 : sessionTimedOut { E with clock := c } s1 = false := by
    simp [sessionTimedOut, hla]
    omega
  have hvf : verifyLogin { E with clock := c } s1 = true := by
    have h0 : verifyLogin { E with clock := c } s1 = verifyLogin E s1 := rfl
    rw [h0, ← hli]
    exact hlog
  have hchk := checkBrowserSession_live { E with clock := c } s1 fx1
    hb hcx hpg hT2 hev
  refine ⟨?_, hsid.symm, rfl⟩
  unfold initializeBrowserSession
  rw [hchk]
  dsimp only
  rw [if_pos (by simp [activeStatus, hvf])]

theorem c4_witness :
    initializeBrowserSession { c4Env with clock := 10 } c4Sess
        { launchCount := 1, nextHandle := 4 } =
      (.ok (activeStatus { c4Env with clock := 10 } c4Sess),
       { c4Sess with lastActivity := some 10 },
       { launchCount := 1, nextHandle := 4 }) :=
  (c4_ensureReady_idempotent c4Env emptySession { } c4St c4Sess
      { launchCount := 1, nextHandle := 4 } 10 (by decide) rfl rfl
      (by decide)).1

/-- C1 counterexample: the error thrown when the discovery loop is
exhausted does not carry the current main-page URL nor the visible
banner text — its message is fixed apart from the load number; URL and
banner are only console-logged. -/
theorem c1_counterexample :
    (executeLoadConfirmation c1Env "L1" emptySession { }).1 =
      .error (notFoundMsg "L1") ∧
    c1Env.mainUrl = "httpz://main" ∧
    jsIncludes (notFoundMsg "L1") "httpz://main" = false ∧
    c1Env.errorBannerText = some "Some warning" ∧
    jsIncludes (notFoundMsg "L1") "Some warning" = false := by
  decide

/-- C1 (amended): for a load number with no tab ever matching the
load-report criteria, the run performs the bounded discovery — consulting
only attempts 1 through `maxRetries` = 5 — then fails with the not-found
error naming the load number, after logging the current main-page URL (and
any visible error/warning text) as console diagnostics; the ensured main
session is returned untouched and remains active with live handles. -/
theorem c1_load_not_found (E : Env) (loadNumber : String)
    (s : BrowserSession) (fx : Effects) (st : SessionStatus)
    (s1 : BrowserSession) (fx1 : Effects)
    (hmk : E.mkdirOk = true)
    (hinit : initializeBrowserSession E s fx = (.ok st, s1, fx1))
    (hact : st.active = true) (hlog : st.loggedIn = true)
    (hnone : ∀ i p, p ∈ E.pagesAt i → pageMatches loadNumber p = false) :
    executeLoadConfirmation E loadNumber s fx =
      (.error (notFoundMsg loadNumber), s1, notFoundFx E fx1) ∧
    ("[AUTOMATION] Still on page: " ++ E.mainUrl) ∈ (notFoundFx E fx1).log ∧
    discoverLoadReport loadNumber E.pagesAt = none ∧
    (∀ alt : Nat → List PageInfo,
      (∀ i, 1 ≤ i → i ≤ maxRetries → alt i = E.pagesAt i) →
      discoverLoadReport loadNumber alt = none) ∧
    s1.browser.isSome = true ∧ s1.context.isSome = true ∧
    s1.page.isSome = true := by
  have hdisc : discoverLoadReport loadNumber E.pagesAt = none := by
    unfold discoverLoadReport
    exact discoverFrom_none loadNumber E.pagesAt maxRetries 1
      (fun i h1 h2 => scanPages_none loadNumber (E.pagesAt i)
        (fun q hq => hnone i q hq))
  obtain ⟨hb, hcx, hpg, -, -, -, -⟩ :=
    initializeBrowserSession_ok_active E s fx st s1 fx1 hinit hact
  refine ⟨?_, notFoundFx_log_mem E fx1, hdisc, ?_, hb, hcx, hpg⟩
  · unfold executeLoadConfirmation
    rw [if_neg (by rw [hmk]; decide)]
    rw [hinit]
    dsimp only
    rw [if_neg (by rw [hact, hlog]; decide)]
    rw [hdisc]
  · intro alt halt
    unfold discoverLoadReport
    rw [discoverFrom_congr loadNumber E.pagesAt alt maxRetries 1
      (fun i h1 h2 => halt i h1 (by omega))]
    exact hdisc

theorem c1_witness :
    executeLoadConfirmation c1Env "L1" emptySession { } =
      (.error (notFoundMsg "L1"), c1Sess1, notFoundFx c1Env c1Fx1) :=
  (c1_load_not_found c1Env "L1" emptySession { } c1St c1Sess1 c1Fx1 rfl
    (by decide) rfl rfl
    (fun i p hp => absurd hp (List.not_mem_nil p))).1

/-- C5: the artifact path of every successful run is exactly the storage
directory joined with `RATECON MULDER BROTHERS <load> <MM.DD.YY>.pdf`, a
deterministic function of the load number and the current date. -/
theorem c5_filename_deterministic (E : Env) (loadNumber : String)
    (s : BrowserSession) (fx : Effects) (p : String)
    (s1 : BrowserSession) (fx1 : Effects)
    (h : executeLoadConfirmation E loadNumber s fx = (.ok p, s1, fx1)) :
    p = pathJoin (jsEnvOr E.envPdfSavePath "/app/temp")
        ("RATECON MULDER BROTHERS " ++ loadNumber ++ " " ++
          dateStamp E.today ++ ".pdf") := by
  unfold executeLoadConfirmation at h
  by_cases hmk : (!E.mkdirOk) = true
  · rw [if_pos hmk] at h
    simp at h
  · rw [if_neg hmk] at h
    dsimp only at h
    rcases hr : initializeBrowserSession E s fx with ⟨er, sA, fxA⟩
    rw [hr] at h
    rcases er with e | stt
    · simp at h
    · dsimp only at h
      by_cases hal : (!(stt.active && stt.loggedIn)) = true
      · rw [if_pos hal] at h
        simp at h
      · rw [if_neg hal] at h
        rcases hd : discoverLoadReport loadNumber E.pagesAt with _ | pg
        · rw [hd] at h
          simp at h
        · rw [hd] at h
          dsimp only at h
          by_cases hex : (!E.exportOk) = true
          · rw [if_pos hex] at h
            simp at h
          · rw [if_neg hex] at h
            have h2 := Except.ok.inj (congrArg Prod.fst h)
            exact h2.symm

theorem c5_witness :
    executeLoadConfirmation c5Env "194828381" emptySession { } =
      (.ok c5Path, c5Sess1, c5Fx1) ∧
    c5Path = pathJoin (jsEnvOr c5Env.envPdfSavePath "/app/temp")
      ("RATECON MULDER BROTHERS " ++ "194828381" ++ " " ++
        dateStamp c5Env.today ++ ".pdf") :=
  ⟨by decide,
   c5_filename_deterministic c5Env "194828381" emptySession { } c5Path
     c5Sess1 c5Fx1 (by decide)⟩

example :
    (checkBrowserSession { clock := 0 } emptySession { }).1.active = false := by
  decide

example : dateStamp { month0 := 0, day := 5, year := 2025 } = "01.05.25" := by
  decide

example :
    pdfFilename "194828381" { month0 := 0, day := 5, year := 2025 } =
      "RATECON MULDER BROTHERS 194828381 01.05.25.pdf" := by
  decide
